import Mathlib

/-!
Shallow embedding of the ADGM Corporate Agent repository:
`components/compliance_checker.py`, `components/rag_engine.py`,
`models/gemini_client.py` and `app.py`.

External collaborators (the Python `re` module, the sentence-embedding
model, the Pinecone index, the Gemini API, `json.loads`, the filesystem)
are modelled as explicit oracle parameters; everything else is translated
directly from the source.  Python floats that only ever hold decimal
literals and exact arithmetic on small integers are modelled as `ℚ`.
-/

/-- Python's `range(start, stop, step)` for a positive `step`, written with
explicit fuel (`stop - start` bounds the iteration count whenever
`1 ≤ step`).  For `step = 0` Python raises; the model then returns a
truncated list, a case never reached by the repository (it always calls
with step `1000 - 200 = 800`). -/
def pythonRangeGo (stop step : Nat) : Nat → Nat → List Nat
  | 0, _ => []
  | fuel + 1, s => if s < stop then s :: pythonRangeGo stop step fuel (s + step) else []

/-- Python `range(start, stop, step)` as a list of start indices. -/
def pythonRange (start stop step : Nat) : List Nat :=
  pythonRangeGo stop step (stop - start) start

/-- Whether a string has some non-whitespace character, i.e. a nonempty
Python `strip()`. -/
def hasNonWS (w : String) : Bool :=
  w.toList.any fun c => !c.isWhitespace

/-- `RAGEngine._chunk_content` (rag_engine.py lines 304-314).  The source
receives the raw text and immediately does `words = content.split()`; the
embedding takes that word list directly, and represents each produced chunk
as its word list instead of the `' '.join(...)` string.  The source guard
`if chunk.strip():` holds exactly when the joined string has some
non-whitespace character, i.e. when some word of the chunk does; that is
the guard written here. -/
def _chunk_content (words : List String) (chunk_size overlap : Nat) : List (List String) :=
  (pythonRange 0 words.length (chunk_size - overlap)).filterMap fun i =>
    let chunk := (words.drop i).take chunk_size
    if chunk.any hasNonWS then some chunk else none

/-- One match returned by `index.query(...)` in `rag_engine.py`: the fields
of `match['metadata']` that the code reads, plus `match['score']`. -/
structure RagMatch where
  score : ℚ
  content : String
  document_id : String
  document_type : String
  source : String
  category : String
  filename : String
deriving DecidableEq

/-- The string appended to `context_chunks` for one surviving match
(rag_engine.py line 334). -/
def contextChunkText (m : RagMatch) : String :=
  "[" ++ m.source ++ " - " ++ m.document_type ++ "]: " ++ m.content

/-- The matches that survive the `match['score'] > 0.7` test in
`analyze_document` (rag_engine.py lines 331-334). -/
def analyzeSurvivors (results : List RagMatch) : List RagMatch :=
  results.filter fun m => (0.7 : ℚ) < m.score

/-- `context_chunks` of `analyze_document`: the formatted texts of the
surviving matches, in order. -/
def contextChunks (results : List RagMatch) : List String :=
  (analyzeSurvivors results).map contextChunkText

/-- `context = '\n\n'.join(context_chunks[:3])` (rag_engine.py line 336). -/
def assembledContext (results : List RagMatch) : String :=
  String.intercalate "\n\n" ((contextChunks results).take 3)

/-- Python `s[:k]` for a string; character-based, like `len` in Python. -/
def pyPrefixOfLen (s : String) (k : Nat) : String :=
  String.mk (s.toList.take k)

/-- The `analysis_prompt` f-string of `analyze_document`
(rag_engine.py lines 339-358), assembled by concatenation. -/
def analysisPrompt (process_type context document_content : String) : String :=
  "\n            You are an expert ADGM legal assistant with access to official ADGM documents. \n            Analyze the document against official ADGM regulations and templates.\n            \n            Process Type: "
    ++ process_type
    ++ "\n            \n            Official ADGM Reference Context:\n            "
    ++ context
    ++ "\n            \n            Document Content to Analyze:\n            "
    ++ pyPrefixOfLen document_content 2000
    ++ "...\n            \n            Provide analysis based ONLY on official ADGM sources:\n            1. Compliance with official ADGM templates and regulations\n            2. Specific violations of ADGM Companies Regulations 2020\n            3. Required corrections with exact ADGM regulatory citations\n            4. Jurisdiction compliance (ADGM Courts vs UAE Federal)\n            \n            Base all recommendations on the official ADGM sources provided above.\n            "

/-- `RAGEngine.analyze_document` (rag_engine.py lines 316-364).  The three
external calls — `self.embedding_model.encode`, `self.index.query`, and
`self.gemini_client.generate_response` — are oracle parameters returning
`Except String _`, where `.error e` models the call raising an exception
with message `str(e) = e`.  The `try/except` of the source is the final
`match`: any raised exception becomes the error string of line 364. -/
def analyze_document (embedRes : Except String (List ℚ))
    (queryRes : List ℚ → Except String (List RagMatch))
    (generate : String → Except String String)
    (document_content process_type : String) : String :=
  match (do
      let query_embedding ← embedRes
      let search_results ← queryRes query_embedding
      let context := assembledContext search_results
      generate (analysisPrompt process_type context document_content)
    : Except String String) with
  | .ok analysis => analysis
  | .error e => "Error in official ADGM analysis: " ++ e

/-- One element of the list returned by `search_knowledge_base`
(rag_engine.py lines 378-390). -/
structure SearchRecord where
  content : String
  document_id : String
  document_type : String
  source : String
  category : String
  filename : String
  score : ℚ
deriving DecidableEq

/-- The record built from a match in the `search_knowledge_base` list
comprehension. -/
def toSearchRecord (m : RagMatch) : SearchRecord :=
  ⟨m.content, m.document_id, m.document_type, m.source, m.category, m.filename, m.score⟩

/-- `RAGEngine.search_knowledge_base` (rag_engine.py lines 366-394), with
the embedding call and index query as oracles as in `analyze_document`.
The source's `try/except` returns `[]` on any exception. -/
def search_knowledge_base (embedRes : Except String (List ℚ))
    (queryRes : List ℚ → Except String (List RagMatch)) : List SearchRecord :=
  match (do
      let query_embedding ← embedRes
      let results ← queryRes query_embedding
      pure ((results.filter fun m => (0.6 : ℚ) < m.score).map toSearchRecord)
    : Except String (List SearchRecord)) with
  | .ok l => l
  | .error _ => []

/-- Outcome of one `self.model.generate_content(prompt)` call in
`GeminiClient.generate_response` (gemini_client.py lines 45-61): either the
call raised (`exn msg`, with `msg = str(e)`) or it returned a response whose
`.text` is `text` (the empty string models a falsy `response.text`). -/
inductive GenOutcome where
  | exn (msg : String)
  | resp (text : String)
deriving DecidableEq

/-- Observable run of `generate_response`: `result = some (.ok t)` models
`return t`, `result = some (.error e)` models raising the terminal
exception with message `e`, and `result = none` models Python falling off
the `for` loop (reachable only with `max_retries = 0`).  `attempts` counts
calls made to the model and `sleeps` records the `time.sleep` durations in
order. -/
structure GenRun where
  result : Option (Except String String)
  attempts : Nat
  sleeps : List Nat

/-- The retry loop of `GeminiClient.generate_response`, one constructor per
loop iteration; `remaining = max_retries - attempt` is the fuel.  An empty
`response.text` raises `Exception("Empty response from Gemini")` inside the
same `try`, so it takes the identical `except` path as a raising call. -/
def generateResponseGo (oracle : Nat → GenOutcome) (max_retries : Nat) :
    Nat → Nat → GenRun
  | 0, _ => ⟨none, 0, []⟩
  | fuel + 1, attempt =>
    let failWith : String → GenRun := fun e =>
      if attempt < max_retries - 1 then
        let r := generateResponseGo oracle max_retries fuel (attempt + 1)
        ⟨r.result, r.attempts + 1, (2 ^ attempt) :: r.sleeps⟩
      else
        ⟨some (.error ("Failed to generate response after "
            ++ toString max_retries ++ " attempts: " ++ e)), 1, []⟩
    match oracle attempt with
    | .resp t => if t = "" then failWith "Empty response from Gemini" else ⟨some (.ok t), 1, []⟩
    | .exn m => failWith m

/-- `GeminiClient.generate_response(prompt, max_retries)`; the model call is
the oracle `attempt ↦ outcome of the (attempt+1)-th call`. -/
def generate_response (oracle : Nat → GenOutcome) (max_retries : Nat) : GenRun :=
  generateResponseGo oracle max_retries max_retries 0

/-- First index of character `c` in `l`, or `none`. -/
def firstIdxOfChar : List Char → Char → Option Nat
  | [], _ => none
  | a :: as, c =>
    if a = c then some 0 else
      match firstIdxOfChar as c with
      | some i => some (i + 1)
      | none => none

/-- Python `s.find(c)`: first character index, `-1` if absent. -/
def pyFind (s : String) (c : Char) : Int :=
  match firstIdxOfChar s.toList c with
  | some i => (i : Int)
  | none => -1

/-- Python `s.rfind(c)`: last character index, `-1` if absent. -/
def pyRfind (s : String) (c : Char) : Int :=
  match firstIdxOfChar s.toList.reverse c with
  | some i => ((s.toList.length - 1 - i : Nat) : Int)
  | none => -1

/-- Python `s[a:b]` for nonnegative character indices. -/
def pySlice (s : String) (a b : Nat) : String :=
  String.mk ((s.toList.drop a).take (b - a))

/-- The opening-brace character, codepoint 123. -/
def lbrace : Char := Char.ofNat 123

/-- The closing-brace character, codepoint 125. -/
def rbrace : Char := Char.ofNat 125

/-- The `compliance_assessment` dict of the fallback objects in
`GeminiClient.analyze_legal_document`. -/
structure ComplianceAssessment where
  overall_compliant : Bool
  compliance_score : Nat
  summary : String
deriving DecidableEq

/-- The shapes `analyze_legal_document` can return (gemini_client.py lines
104-143): the parsed JSON dict, the degraded dict carrying the raw response
under `full_response`, or the outer-exception dict carrying an `error`
field.  `J` is the type of parsed JSON values, kept abstract. -/
inductive LegalAnalysisResult (J : Type) where
  | parsed (value : J)
  | degraded (compliance_assessment : ComplianceAssessment) (full_response : String)
  | failed (error : String) (compliance_assessment : ComplianceAssessment)
deriving DecidableEq

/-- The `compliance_assessment` of the degraded (`full_response`) dicts. -/
def degradedAssessment : ComplianceAssessment :=
  ⟨false, 50, "Analysis completed - see full response"⟩

/-- The `compliance_assessment` of the outer-exception dict. -/
def failedAssessment : ComplianceAssessment :=
  ⟨false, 0, "Analysis could not be completed"⟩

/-- `GeminiClient.analyze_legal_document` (gemini_client.py lines 104-143),
from the `self.generate_response(prompt)` call on: `genResult` is that
call's outcome (the prompt construction does not affect the analysed
behaviour), and `json_loads` is the `json.loads` oracle, `none` modelling
`JSONDecodeError`.  Note `json_end = rfind('}') + 1` is `0`, not `-1`, when
`'}'` is absent, so the `json_start != -1 and json_end != -1` test only
rules out a missing `'{'`; an empty or brace-free slice then fails to parse
and falls to the degraded dict. -/
def analyze_legal_document (J : Type) (json_loads : String → Option J)
    (genResult : Except String String) : LegalAnalysisResult J :=
  match genResult with
  | .error e => .failed ("Analysis failed: " ++ e) failedAssessment
  | .ok response =>
    let json_start := pyFind response lbrace
    let json_end := pyRfind response rbrace + 1
    if json_start ≠ -1 ∧ json_end ≠ -1 then
      let json_str := pySlice response json_start.toNat json_end.toNat
      match json_loads json_str with
      | some v => .parsed v
      | none => .degraded degradedAssessment response
    else
      .degraded degradedAssessment response

/-- Needle-leads test on character lists: `charsLead n h` holds when `n` is
an initial run of `h`. -/
def charsLead : List Char → List Char → Bool
  | [], _ => true
  | _ :: _, [] => false
  | a :: as, b :: bs => a == b && charsLead as bs

/-- Substring occurrence on character lists. -/
def charsContain : List Char → List Char → Bool
  | [], needle => charsLead needle []
  | h :: t, needle => charsLead needle (h :: t) || charsContain t needle

/-- Python's `needle in hay` substring test on strings. -/
def strContains (hay needle : String) : Bool :=
  charsContain hay.toList needle.toList

/-- Python `s.lower()`, character by character (the repository only lowers
ASCII legal text). -/
def pyLower (s : String) : String :=
  String.mk (s.toList.map Char.toLower)

/-- Splitting on a separator character, keeping empty pieces, as Python's
`s.split(sep)` does; `acc` holds the current piece reversed. -/
def splitOnCharGo (sep : Char) : List Char → List Char → List String
  | [], acc => [String.mk acc.reverse]
  | a :: rest, acc =>
    if a = sep then String.mk acc.reverse :: splitOnCharGo sep rest []
    else splitOnCharGo sep rest (a :: acc)

/-- Python `s.split(sep)` for a one-character separator. -/
def splitOnChar (s : String) (sep : Char) : List String :=
  splitOnCharGo sep s.toList []

/-- The per-paragraph `structure` dict produced by the document parser and
read by `_check_formatting_requirements`. -/
structure DocStructure where
  has_signature_section : Bool
  has_date_section : Bool
  headings : List String
deriving DecidableEq

/-- The fields of the parsed `doc_data` dict that the compliance checker
reads (`document_type`, `content`, `structure`; the last is named
`structure_info` here because `structure` is a Lean keyword). -/
structure DocData where
  document_type : String
  content : String
  structure_info : DocStructure
deriving DecidableEq

/-- One issue dict appended by the compliance passes; `matched_text` is only
set by the red-flag pass, `none` modelling an absent key. -/
structure Issue where
  location : String
  issue : String
  severity : String
  category : String
  suggestion : String
  matched_text : Option String
deriving DecidableEq

/-- One entry of `self.process_requirements`. -/
structure ProcessReq where
  required_documents : List String
  mandatory_clauses : List String
  jurisdiction_requirements : List String
deriving DecidableEq

/-- `ComplianceChecker.process_requirements` (compliance_checker.py lines
7-52), as an association list in dict order. -/
def process_requirements : List (String × ProcessReq) :=
  [("Company Incorporation",
    { required_documents := ["Articles of Association", "Memorandum of Association",
        "Board Resolution", "UBO Declaration Form", "Register of Members and Directors"],
      mandatory_clauses := ["registered office", "share capital", "objects clause",
        "liability clause", "directors powers"],
      jurisdiction_requirements := ["ADGM", "Abu Dhabi Global Market"] }),
   ("Business Licensing",
    { required_documents := ["License Application Form", "Business Plan",
        "Articles of Association", "Commercial License"],
      mandatory_clauses := ["business activities", "registered office", "authorized activities"],
      jurisdiction_requirements := ["ADGM"] }),
   ("Constitutional Amendments",
    { required_documents := ["Board Resolution", "Shareholder Resolution", "Amended Articles"],
      mandatory_clauses := ["amendment clause", "special resolution", "effective date"],
      jurisdiction_requirements := ["ADGM"] })]

/-- One entry of `self.red_flag_patterns`. -/
structure RedFlag where
  pattern : String
  issue : String
  severity : String
  category : String
deriving DecidableEq

/-- `ComplianceChecker.red_flag_patterns` (compliance_checker.py lines
54-85); the literal braces of the third Python pattern are written with
hex escapes. -/
def red_flag_patterns : List RedFlag :=
  [{ pattern := "UAE Federal Court|Dubai Court|Abu Dhabi Court(?!.*ADGM)",
     issue := "Incorrect jurisdiction - should specify ADGM Courts",
     severity := "High", category := "jurisdiction" },
   { pattern := "UAE Commercial Code(?!.*ADGM)",
     issue := "Reference to UAE Commercial Code instead of ADGM regulations",
     severity := "High", category := "jurisdiction" },
   { pattern := "\\[.*\\]|\\\x7b.*\\\x7d|TBD|TO BE DETERMINED",
     issue := "Template placeholder not filled",
     severity := "Medium", category := "completeness" },
   { pattern := "shall be deemed|may be construed|could be interpreted",
     issue := "Ambiguous legal language",
     severity := "Medium", category := "clarity" },
   { pattern := "(?i)witness.*signature.*(?!.*ADGM)",
     issue := "Signature section may not comply with ADGM requirements",
     severity := "Low", category := "formatting" }]

/-- The oracle modelling `re.finditer(pattern, content, re.IGNORECASE)`:
for a pattern and a content string it yields the matches as
`(match.start(), match.group())` pairs, in order.  `re.search` succeeds
exactly when `re.finditer` yields at least one match, so the jurisdiction
pass tests this list for nonemptiness. -/
def RegexOracle : Type := String → String → List (Nat × String)

/-- `ComplianceChecker._find_paragraph_location` loop body
(compliance_checker.py lines 309-319), structurally recursing over the
lines of `content.split('\n')` while tracking the running character
offset. -/
def findParagraphGo (position : Nat) : List String → Nat → Nat → String
  | [], _, _ => "Unknown location"
  | line :: rest, i, current_pos =>
    if current_pos ≤ position ∧ position ≤ current_pos + line.length then
      if line.length > 50 then
        "Paragraph " ++ toString (i + 1) ++ ": " ++ pyPrefixOfLen line 50 ++ "..."
      else
        "Paragraph " ++ toString (i + 1) ++ ": " ++ line
    else
      findParagraphGo position rest (i + 1) (current_pos + line.length + 1)

/-- `ComplianceChecker._find_paragraph_location`. -/
def _find_paragraph_location (content : String) (position : Nat) : String :=
  findParagraphGo position (splitOnChar content '\n') 0 0

/-- `ComplianceChecker._get_red_flag_suggestion` (compliance_checker.py
lines 321-330); the `issue` argument is unused in the source too. -/
def _get_red_flag_suggestion (category _issue : String) : String :=
  match List.lookup category
      [("jurisdiction", "Update to specify ADGM as governing jurisdiction"),
       ("completeness", "Fill in all template placeholders with actual values"),
       ("clarity", "Use clear, definitive legal language"),
       ("formatting", "Follow ADGM document formatting requirements")] with
  | some s => s
  | none => "Review and correct as per ADGM requirements"

/-- `ComplianceChecker._check_document_type_requirements`
(compliance_checker.py lines 135-155).  `process_type not in
self.process_requirements` is the `none` case of the association-list
lookup. -/
def _check_document_type_requirements (doc_data : DocData) (process_type : String) : List Issue :=
  match List.lookup process_type process_requirements with
  | none => []
  | some requirements =>
    let doc_type := doc_data.document_type
    if doc_type ∉ requirements.required_documents ∧ doc_type ≠ "Unknown Document Type" then
      [{ location := "Document Type",
         issue := "Document type \"" ++ doc_type ++ "\" may not be required for " ++ process_type,
         severity := "Medium", category := "document_type",
         suggestion := "Verify if this document is needed for " ++ process_type,
         matched_text := none }]
    else []

/-- `ComplianceChecker._detect_red_flags` (compliance_checker.py lines
157-178), with `re.finditer` as the oracle. -/
def _detect_red_flags (finditer : RegexOracle) (doc_data : DocData) : List Issue :=
  let content := doc_data.content
  red_flag_patterns.flatMap fun flag =>
    (finditer flag.pattern content).map fun m =>
      { location := _find_paragraph_location content m.1,
        issue := flag.issue, severity := flag.severity, category := flag.category,
        suggestion := _get_red_flag_suggestion flag.category flag.issue,
        matched_text := some m.2 }

/-- `ComplianceChecker._check_mandatory_clauses` (compliance_checker.py
lines 180-200); Python's `clause.lower() not in content` is the substring
test `strContains`. -/
def _check_mandatory_clauses (doc_data : DocData) (process_type : String) : List Issue :=
  match List.lookup process_type process_requirements with
  | none => []
  | some requirements =>
    let content := pyLower doc_data.content
    requirements.mandatory_clauses.filterMap fun clause =>
      if ¬ strContains content (pyLower clause) then
        some { location := "Document Content",
               issue := "Missing mandatory clause: " ++ clause,
               severity := "High", category := "mandatory_clauses",
               suggestion := "Add " ++ clause ++ " clause as required for " ++ process_type,
               matched_text := none }
      else none

/-- The `federal_patterns` list of `_check_jurisdiction_compliance`
(compliance_checker.py lines 225-229). -/
def federal_patterns : List String :=
  ["UAE Federal Court",
   "Dubai International Financial Centre(?!.*ADGM)",
   "UAE Commercial Code(?!.*ADGM)"]

/-- `ComplianceChecker._check_jurisdiction_compliance`
(compliance_checker.py lines 202-241): the `any(req in content ...)`
presence test uses the substring oracle-free `strContains`; the
`re.search(pattern, content, re.IGNORECASE)` truthiness test is
nonemptiness of the `finditer` oracle's match list. -/
def _check_jurisdiction_compliance (finditer : RegexOracle) (doc_data : DocData)
    (process_type : String) : List Issue :=
  match List.lookup process_type process_requirements with
  | none => []
  | some requirements =>
    let content := doc_data.content
    let adgm_mentioned := requirements.jurisdiction_requirements.any fun req =>
      strContains content req
    let missing_issues :=
      if ¬ adgm_mentioned then
        [{ location := "Jurisdiction Clause",
           issue := "ADGM jurisdiction not properly specified",
           severity := "High", category := "jurisdiction",
           suggestion := "Specify ADGM as the governing jurisdiction and court system",
           matched_text := none }]
      else []
    let federal_issues := federal_patterns.filterMap fun pattern =>
      if finditer pattern content ≠ [] then
        some { location := "Jurisdiction Reference",
               issue := "Incorrect reference to UAE federal jurisdiction",
               severity := "High", category := "jurisdiction",
               suggestion := "Replace with ADGM jurisdiction and regulations",
               matched_text := none }
      else none
    missing_issues ++ federal_issues

/-- `ComplianceChecker._check_formatting_requirements`
(compliance_checker.py lines 243-279). -/
def _check_formatting_requirements (doc_data : DocData) : List Issue :=
  let s := doc_data.structure_info
  (if ¬ s.has_signature_section then
    [{ location := "Document End", issue := "Missing signature section",
       severity := "Medium", category := "formatting",
       suggestion := "Add proper signature section with witness requirements",
       matched_text := none }]
   else []) ++
  (if ¬ s.has_date_section then
    [{ location := "Document Header/Footer", issue := "Missing date section",
       severity := "Low", category := "formatting",
       suggestion := "Add document execution date", matched_text := none }]
   else []) ++
  (if s.headings.length = 0 then
    [{ location := "Document Structure", issue := "No proper heading structure found",
       severity := "Low", category := "formatting",
       suggestion := "Use proper heading styles for better document structure",
       matched_text := none }]
   else [])

/-- `ComplianceChecker._check_signature_requirements`
(compliance_checker.py lines 281-307). -/
def _check_signature_requirements (doc_data : DocData) : List Issue :=
  let content := pyLower doc_data.content
  let signature_elements := [("signature", "Signature line"),
                             ("witness", "Witness section"),
                             ("date", "Date field")]
  let missing_elements := signature_elements.filterMap fun e =>
    if ¬ strContains content e.1 then some e.2 else none
  if missing_elements ≠ [] then
    [{ location := "Signature Section",
       issue := "Missing signature elements: " ++ String.intercalate ", " missing_elements,
       severity := "Medium", category := "signatures",
       suggestion := "Add complete signature section with all required elements",
       matched_text := none }]
  else []

/-- `len(set(issue['category'] for issue in issues))` realised through
`List.dedup` (compliance_checker.py line 117); the deduplicated category
list itself. -/
def distinctCategories (issues : List Issue) : List String :=
  (issues.map fun i => i.category).dedup

/-- The score computation of `check_document` (compliance_checker.py lines
115-118): `max(0, (total_checks - failed_checks) / total_checks * 100)`
with `total_checks = 6`, in exact rational arithmetic. -/
def complianceScore (issues : List Issue) : ℚ :=
  max 0 ((6 - ((distinctCategories issues).length : ℚ)) / 6 * 100)

/-- The dict returned by `check_document` (compliance_checker.py lines
120-133). -/
structure CheckResult where
  is_compliant : Bool
  compliance_score : ℚ
  total_issues : Nat
  issues : List Issue
  checked_categories : List String

/-- `ComplianceChecker.check_document` (compliance_checker.py lines
87-133): the six passes in order, then the score. -/
def check_document (finditer : RegexOracle) (doc_data : DocData)
    (process_type : String) : CheckResult :=
  let issues :=
    _check_document_type_requirements doc_data process_type ++
    _detect_red_flags finditer doc_data ++
    _check_mandatory_clauses doc_data process_type ++
    _check_jurisdiction_compliance finditer doc_data process_type ++
    _check_formatting_requirements doc_data ++
    _check_signature_requirements doc_data
  { is_compliant := issues.length == 0,
    compliance_score := complianceScore issues,
    total_issues := issues.length,
    issues := issues,
    checked_categories := ["document_type", "red_flags", "mandatory_clauses",
      "jurisdiction", "formatting", "signatures"] }

/-- One document-processing attempt of `ADGMCorporateAgent.process_documents`
(app.py lines 188-231), observed through the filesystem, modelled as the
finite set of existing paths.  `tempfile.NamedTemporaryFile(delete=False)`
creates the file; `body` is the `try` block (parse, RAG analysis,
compliance check, comment injection), which may alter the filesystem and
either finish (`.ok`) or raise (`.error`, carrying the filesystem at the
raise point — the `except` handler only renders the message); the
`finally` block unlinks the temporary file when it still exists. -/
def process_one_document (fs : Finset String) (tmp_file_path : String)
    (body : Finset String → Except (String × Finset String) (Finset String)) : Finset String :=
  let fs1 := insert tmp_file_path fs
  let fs2 := match body fs1 with
    | .ok fs' => fs'
    | .error e => e.2
  if tmp_file_path ∈ fs2 then fs2.erase tmp_file_path else fs2

/-- Issue with the given category and all other fields blank; used to build
concrete inputs for the score theorems. -/
def mkIssue (category : String) : Issue :=
  { location := "", issue := "", severity := "", category := category,
    suggestion := "", matched_text := none }

/-- Specification-side view of one `generate_content` call inside the
retry loop: `some e` when the `try` body raises an exception whose message
is `e` (an API exception, or `Exception("Empty response from Gemini")`
for a falsy `response.text`), `none` on success. -/
def attemptFailure : GenOutcome → Option String
  | .exn m => some m
  | .resp t => if t = "" then some "Empty response from Gemini" else none

/-- The amended chunking property of claim C2, parameterised over the word
list of the input text. -/
def ChunkSpec (ws : List String) : Prop :=
  (_chunk_content ws 1000 200).length = (ws.length + 799) / 800 ∧
  (∀ c ∈ _chunk_content ws 1000 200, c ≠ []) ∧
  (∀ j, j + 2 < (ws.length + 799) / 800 →
    ((_chunk_content ws 1000 200).getD j []).length = 1000) ∧
  (∀ j, j + 1 < (ws.length + 799) / 800 →
    801 ≤ ((_chunk_content ws 1000 200).getD j []).length ∧
    ((_chunk_content ws 1000 200).getD j []).length ≤ 1000) ∧
  (∀ j, j + 1 < (ws.length + 799) / 800 →
    ((_chunk_content ws 1000 200).getD j []).drop 800 =
      ((_chunk_content ws 1000 200).getD (j + 1) []).take 200 ∧
    (((_chunk_content ws 1000 200).getD j []).length = 1000 →
      (((_chunk_content ws 1000 200).getD j []).drop 800).length = 200))

/-- A regex oracle yielding no match for any pattern. -/
def emptyRegexOracle : RegexOracle := fun _ _ => []

/-- A parsed document with blank content and no structural elements. -/
def sampleDoc : DocData :=
  { document_type := "Board Resolution", content := "",
    structure_info := { has_signature_section := false, has_date_section := false,
                        headings := [] } }

/-- A retrieval match with similarity score `0.8`. -/
def sampleMatch : RagMatch :=
  { score := 4 / 5, content := "chunk", document_id := "doc", document_type := "t",
    source := "s", category := "c", filename := "f" }

/-- A `json.loads` oracle recognising exactly the string `"{a}"`. -/
def wJsonLoads : String → Option Nat :=
  fun s => if s = "\x7ba\x7d" then some 7 else none

/-- A generation-call oracle for which every attempt raises. -/
def allFailOracle : Nat → GenOutcome := fun _ => .exn "boom"

/-- A regex oracle matching exactly the placeholder pattern and the
ambiguous-language pattern of `red_flag_patterns`, as `re.finditer` would
on a document containing `TBD` and `shall be deemed`. -/
def sevenCategoryOracle : RegexOracle := fun pattern _ =>
  if pattern = "\\[.*\\]|\\\x7b.*\\\x7d|TBD|TO BE DETERMINED" then [(0, "TBD")]
  else if pattern = "shall be deemed|may be construed|could be interpreted" then
    [(0, "shall be deemed")]
  else []

/-- A document whose type is unexpected and which is missing every clause
and structural element. -/
def sevenCategoryDoc : DocData :=
  { document_type := "Random Letter", content := "",
    structure_info := { has_signature_section := false, has_date_section := false,
                        headings := [] } }

/-- Six issues covering six distinct categories. -/
def issuesSixCats : List Issue :=
  [mkIssue "document_type", mkIssue "jurisdiction", mkIssue "completeness",
   mkIssue "clarity", mkIssue "formatting", mkIssue "mandatory_clauses"]

/-- Claim C1: for every regex oracle, document and process type,
`check_document` returns `compliance_score = max(0, (6 - c)/6 * 100)` where
`c` is the number of distinct categories among the returned issues, returns
`is_compliant = true` exactly when the returned issue list is empty, and
reports the six pass names as the checked categories. -/
theorem check_document_score_spec (finditer : RegexOracle) (doc_data : DocData)
    (process_type : String) :
    (check_document finditer doc_data process_type).compliance_score =
      max 0 ((6 - ((distinctCategories
        (check_document finditer doc_data process_type).issues).length : ℚ)) / 6 * 100) ∧
    ((check_document finditer doc_data process_type).is_compliant = true ↔
      (check_document finditer doc_data process_type).issues = []) ∧
    (check_document finditer doc_data process_type).checked_categories =
      ["document_type", "red_flags", "mandatory_clauses", "jurisdiction",
       "formatting", "signatures"] := by
  refine ⟨rfl, ?_, rfl⟩
  simp [check_document, complianceScore, List.length_eq_zero]

/-- Claim C8: for every starting filesystem, temporary-file path and
processing body (which may succeed or raise after arbitrary filesystem
changes), the temporary file does not exist once the attempt completes. -/
theorem temp_file_cleanup_spec (fs : Finset String) (tmp_file_path : String)
    (body : Finset String → Except (String × Finset String) (Finset String)) :
    process_one_document fs tmp_file_path body ∩ {tmp_file_path} = ∅ := by
  unfold process_one_document
  set fs2 := (match body (insert tmp_file_path fs) with
    | .ok fs' => fs'
    | .error e => e.2) with hfs2
  by_cases h : tmp_file_path ∈ fs2
  · simp only [if_pos h]
    ext a
    simp only [Finset.mem_inter, Finset.mem_singleton, Finset.not_mem_empty, iff_false,
      not_and, Finset.mem_erase]
    rintro ⟨hne, _⟩ rfl
    exact hne rfl
  · simp only [if_neg h]
    ext a
    simp only [Finset.mem_inter, Finset.mem_singleton, Finset.not_mem_empty, iff_false, not_and]
    rintro ha rfl
    exact h ha

/-- Claim C7: when the process type is not one of the three configured
process types, the document-type pass, the mandatory-clause pass and the
jurisdiction pass each return no issues. -/
theorem unknown_process_type_spec (finditer : RegexOracle) (doc_data : DocData)
    (process_type : String)
    (h1 : process_type ≠ "Company Incorporation")
    (h2 : process_type ≠ "Business Licensing")
    (h3 : process_type ≠ "Constitutional Amendments") :
    _check_document_type_requirements doc_data process_type = [] ∧
    _check_mandatory_clauses doc_data process_type = [] ∧
    _check_jurisdiction_compliance finditer doc_data process_type = [] := by
  have hl : List.lookup process_type process_requirements = none := by
    have e1 : (process_type == "Company Incorporation") = false := beq_eq_false_iff_ne.mpr h1
    have e2 : (process_type == "Business Licensing") = false := beq_eq_false_iff_ne.mpr h2
    have e3 : (process_type == "Constitutional Amendments") = false := beq_eq_false_iff_ne.mpr h3
    simp [process_requirements, List.lookup, e1, e2, e3]
  refine ⟨?_, ?_, ?_⟩ <;>
    simp [_check_document_type_requirements, _check_mandatory_clauses,
      _check_jurisdiction_compliance, hl]

/-- Witness for claim C7 at the unknown process type `"Custom Process"`. -/
theorem unknown_process_type_spec_witness :
    (("Custom Process" : String) ≠ "Company Incorporation" ∧
     ("Custom Process" : String) ≠ "Business Licensing" ∧
     ("Custom Process" : String) ≠ "Constitutional Amendments") ∧
    (_check_document_type_requirements sampleDoc "Custom Process" = [] ∧
     _check_mandatory_clauses sampleDoc "Custom Process" = [] ∧
     _check_jurisdiction_compliance emptyRegexOracle sampleDoc "Custom Process" = []) :=
  ⟨⟨by decide, by decide, by decide⟩,
   unknown_process_type_spec emptyRegexOracle sampleDoc "Custom Process"
     (by decide) (by decide) (by decide)⟩

/-- `Except.bind` on a success, by definition. -/
theorem exceptBind_ok {α β : Type} (a : α) (f : α → Except String β) :
    (Except.ok a >>= f) = f a := rfl

/-- `Except.bind` on an error, by definition. -/
theorem exceptBind_err {α β : Type} (e : String) (f : α → Except String β) :
    ((Except.error e : Except String α) >>= f) = Except.error e := rfl

/-- `Except.map` on a success, by definition. -/
theorem exceptMap_ok {α β : Type} (a : α) (f : α → β) :
    (f <$> (Except.ok a : Except String α)) = Except.ok (f a) := rfl

/-- `Except.map` on an error, by definition. -/
theorem exceptMap_err {α β : Type} (e : String) (f : α → β) :
    (f <$> (Except.error e : Except String α)) = Except.error e := rfl

/-- Claim C3: `analyze_document` never places a retrieved reference chunk
with similarity score `≤ 0.7` in its assembled context and uses at most the
first 3 surviving chunks, and `search_knowledge_base` never includes a
match with similarity score `≤ 0.6` in its returned list. -/
theorem threshold_filtering_spec :
    (∀ results : List RagMatch, ∀ m ∈ analyzeSurvivors results, (0.7 : ℚ) < m.score) ∧
    (∀ results : List RagMatch,
      ((contextChunks results).take 3).length ≤ 3 ∧
      (∀ c ∈ (contextChunks results).take 3, c ∈ contextChunks results) ∧
      assembledContext results =
        String.intercalate "\n\n" ((contextChunks results).take 3)) ∧
    (∀ (embedRes : Except String (List ℚ))
       (queryRes : List ℚ → Except String (List RagMatch)),
      ∀ r ∈ search_knowledge_base embedRes queryRes, (0.6 : ℚ) < r.score) := by
  refine ⟨?_, ?_, ?_⟩
  · intro results m hm
    exact of_decide_eq_true (List.mem_filter.mp hm).2
  · intro results
    exact ⟨by simp, fun c hc => List.mem_of_mem_take hc, rfl⟩
  · intro embedRes queryRes r hr
    unfold search_knowledge_base at hr
    cases embedRes with
    | error e => simp only [exceptBind_err] at hr; simp at hr
    | ok emb =>
      cases hq : queryRes emb with
      | error e => simp only [exceptBind_ok, hq, exceptMap_err] at hr; simp at hr
      | ok results =>
        simp only [exceptBind_ok, hq, exceptMap_ok] at hr
        obtain ⟨m, hm, rfl⟩ := List.mem_map.mp hr
        have := (List.mem_filter.mp hm).2
        simpa [toSearchRecord] using this

/-- Witness for claim C3 at a single retrieved match of score `0.8`. -/
theorem threshold_filtering_spec_witness :
    sampleMatch ∈ analyzeSurvivors [sampleMatch] ∧ (0.7 : ℚ) < sampleMatch.score := by
  have h : (0.7 : ℚ) < sampleMatch.score := by norm_num [sampleMatch]
  have hmem : sampleMatch ∈ analyzeSurvivors [sampleMatch] := by
    rw [analyzeSurvivors, List.mem_filter]
    exact ⟨by simp, by simp [h]⟩
  exact ⟨hmem, threshold_filtering_spec.1 [sampleMatch] sampleMatch hmem⟩

/-- Claim C4: `analyze_document` never raises: whichever step fails —
embedding, index query, or generation — the raised exception is caught and
a human-readable error string is returned as the analysis; when all steps
succeed the generated analysis is returned. -/
theorem analyze_document_error_handling (embedRes : Except String (List ℚ))
    (queryRes : List ℚ → Except String (List RagMatch))
    (generate : String → Except String String)
    (document_content process_type : String) :
    (∀ e, embedRes = .error e →
      analyze_document embedRes queryRes generate document_content process_type =
        "Error in official ADGM analysis: " ++ e) ∧
    (∀ emb e, embedRes = .ok emb → queryRes emb = .error e →
      analyze_document embedRes queryRes generate document_content process_type =
        "Error in official ADGM analysis: " ++ e) ∧
    (∀ emb results e, embedRes = .ok emb → queryRes emb = .ok results →
      generate (analysisPrompt process_type (assembledContext results) document_content) =
        .error e →
      analyze_document embedRes queryRes generate document_content process_type =
        "Error in official ADGM analysis: " ++ e) ∧
    (∀ emb results a, embedRes = .ok emb → queryRes emb = .ok results →
      generate (analysisPrompt process_type (assembledContext results) document_content) =
        .ok a →
      analyze_document embedRes queryRes generate document_content process_type = a) := by
  refine ⟨?_, ?_, ?_, ?_⟩
  · rintro e rfl
    simp only [analyze_document, exceptBind_err]
  · rintro emb e rfl hq
    simp only [analyze_document, exceptBind_ok, hq, exceptBind_err]
  · rintro emb results e rfl hq hg
    simp only [analyze_document, exceptBind_ok, hq, hg]
  · rintro emb results a rfl hq hg
    simp only [analyze_document, exceptBind_ok, hq, hg]

/-- Witness for claim C4 at a failing embedding call. -/
theorem analyze_document_error_handling_witness :
    ((Except.error "embedding failed" : Except String (List ℚ)) =
      Except.error "embedding failed") ∧
    analyze_document (Except.error "embedding failed") (fun _ => Except.ok [])
        (fun _ => Except.ok "fine") "doc" "Company Incorporation" =
      "Error in official ADGM analysis: embedding failed" :=
  ⟨rfl, (analyze_document_error_handling (Except.error "embedding failed")
    (fun _ => Except.ok []) (fun _ => Except.ok "fine") "doc" "Company Incorporation").1
    "embedding failed" rfl⟩

/-- Python `rfind` never returns less than `-1`. -/
theorem neg_one_le_pyRfind (s : String) (c : Char) : -1 ≤ pyRfind s c := by
  unfold pyRfind
  split
  · omega
  · exact le_refl _

/-- Claim C9: `analyze_legal_document` extracts the span of the generation
response running from its first opening brace to its last closing brace and
parses it as JSON; when the response has no opening brace, or the parse
fails, it returns (without raising) the degraded object whose
`compliance_assessment` field is the fixed degraded assessment and which
carries the raw response under `full_response`; an exception of the
generation call itself yields the error object. -/
theorem analyze_legal_document_fallback_spec (J : Type) (json_loads : String → Option J)
    (response : String) :
    (pyFind response lbrace = -1 →
      analyze_legal_document J json_loads (.ok response) =
        .degraded degradedAssessment response) ∧
    (∀ v, pyFind response lbrace ≠ -1 →
      json_loads (pySlice response (pyFind response lbrace).toNat
        (pyRfind response rbrace + 1).toNat) = some v →
      analyze_legal_document J json_loads (.ok response) = .parsed v) ∧
    (pyFind response lbrace ≠ -1 →
      json_loads (pySlice response (pyFind response lbrace).toNat
        (pyRfind response rbrace + 1).toNat) = none →
      analyze_legal_document J json_loads (.ok response) =
        .degraded degradedAssessment response) ∧
    (∀ e, analyze_legal_document J json_loads (.error e) =
      .failed ("Analysis failed: " ++ e) failedAssessment) := by
  have h2 : pyRfind response rbrace + 1 ≠ -1 := by
    have := neg_one_le_pyRfind response rbrace
    omega
  refine ⟨?_, ?_, ?_, fun e => rfl⟩
  · intro h
    simp [analyze_legal_document, h]
  · intro v hne hj
    simp [analyze_legal_document, hne, h2, hj]
  · intro hne hj
    simp [analyze_legal_document, hne, h2, hj]

/-- Witness for claim C9 at the response `"x{a}y"` whose brace span parses. -/
theorem analyze_legal_document_fallback_spec_witness :
    (pyFind "x\x7ba\x7dy" lbrace ≠ -1 ∧
      wJsonLoads (pySlice "x\x7ba\x7dy" (pyFind "x\x7ba\x7dy" lbrace).toNat
        (pyRfind "x\x7ba\x7dy" rbrace + 1).toNat) = some 7) ∧
    analyze_legal_document Nat wJsonLoads (.ok "x\x7ba\x7dy") = .parsed 7 :=
  ⟨⟨by decide, by decide⟩,
   (analyze_legal_document_fallback_spec Nat wJsonLoads "x\x7ba\x7dy").2.1 7
     (by decide) (by decide)⟩

/-- The retry loop makes at most `fuel` model calls. -/
theorem generateResponseGo_attempts_le (oracle : Nat → GenOutcome) (m : Nat) :
    ∀ fuel attempt, (generateResponseGo oracle m fuel attempt).attempts ≤ fuel := by
  intro fuel
  induction fuel with
  | zero => intro attempt; simp [generateResponseGo]
  | succ fuel ih =>
    intro attempt
    simp only [generateResponseGo]
    cases ho : oracle attempt with
    | resp t =>
      simp only [ho]
      by_cases ht : t = ""
      · subst ht
        rw [if_pos rfl]
        by_cases hc : attempt < m - 1
        · rw [if_pos hc]
          show (generateResponseGo oracle m fuel (attempt + 1)).attempts + 1 ≤ fuel + 1
          have := ih (attempt + 1)
          omega
        · rw [if_neg hc]
          show (1 : Nat) ≤ fuel + 1
          omega
      · rw [if_neg ht]
        show (1 : Nat) ≤ fuel + 1
        omega
    | exn msg =>
      simp only [ho]
      by_cases hc : attempt < m - 1
      · rw [if_pos hc]
        show (generateResponseGo oracle m fuel (attempt + 1)).attempts + 1 ≤ fuel + 1
        have := ih (attempt + 1)
        omega
      · rw [if_neg hc]
        show (1 : Nat) ≤ fuel + 1
        omega

/-- One loop iteration whose `try` body raises with message `e`. -/
theorem generateResponseGo_fail_step (oracle : Nat → GenOutcome) (m fuel attempt : Nat)
    (e : String) (h : attemptFailure (oracle attempt) = some e) :
    generateResponseGo oracle m (fuel + 1) attempt =
      if attempt < m - 1 then
        ⟨(generateResponseGo oracle m fuel (attempt + 1)).result,
         (generateResponseGo oracle m fuel (attempt + 1)).attempts + 1,
         (2 ^ attempt) :: (generateResponseGo oracle m fuel (attempt + 1)).sleeps⟩
      else
        ⟨some (.error ("Failed to generate response after " ++ toString m
          ++ " attempts: " ++ e)), 1, []⟩ := by
  cases ho : oracle attempt with
  | exn msg =>
    rw [ho] at h
    simp only [attemptFailure, Option.some.injEq] at h
    subst h
    simp only [generateResponseGo, ho]
  | resp t =>
    rw [ho] at h
    by_cases ht : t = ""
    · subst ht
      simp [attemptFailure] at h
      subst h
      simp only [generateResponseGo, ho]
      rw [if_pos trivial]
    · exfalso
      simp [attemptFailure, ht] at h

/-- One loop iteration whose call returns non-empty text. -/
theorem generateResponseGo_success_step (oracle : Nat → GenOutcome) (m fuel attempt : Nat)
    (t : String) (ho : oracle attempt = .resp t) (ht : t ≠ "") :
    generateResponseGo oracle m (fuel + 1) attempt = ⟨some (.ok t), 1, []⟩ := by
  simp [generateResponseGo, ho, ht]

/-- Claim C6: `generate_response` with the default `max_retries = 3`
attempts the generation call at most 3 times; after each failed attempt
except the last it sleeps `2^attempt` seconds before retrying; it returns
the response text of the first attempt yielding non-empty text; and it
raises the terminal error after all 3 attempts fail. -/
theorem generate_response_retry_spec (oracle : Nat → GenOutcome) :
    (generate_response oracle 3).attempts ≤ 3 ∧
    (∀ t, oracle 0 = .resp t → t ≠ "" →
      generate_response oracle 3 = ⟨some (.ok t), 1, []⟩) ∧
    (∀ e0 t, attemptFailure (oracle 0) = some e0 → oracle 1 = .resp t → t ≠ "" →
      generate_response oracle 3 = ⟨some (.ok t), 2, [1]⟩) ∧
    (∀ e0 e1 t, attemptFailure (oracle 0) = some e0 → attemptFailure (oracle 1) = some e1 →
      oracle 2 = .resp t → t ≠ "" →
      generate_response oracle 3 = ⟨some (.ok t), 3, [1, 2]⟩) ∧
    (∀ e0 e1 e2, attemptFailure (oracle 0) = some e0 → attemptFailure (oracle 1) = some e1 →
      attemptFailure (oracle 2) = some e2 →
      generate_response oracle 3 =
        ⟨some (.error ("Failed to generate response after 3 attempts: " ++ e2)),
         3, [1, 2]⟩) := by
  have u3 : generateResponseGo oracle 3 3 0 = generateResponseGo oracle 3 (2 + 1) 0 := rfl
  have u2 : generateResponseGo oracle 3 2 1 = generateResponseGo oracle 3 (1 + 1) 1 := rfl
  have u1 : generateResponseGo oracle 3 1 2 = generateResponseGo oracle 3 (0 + 1) 2 := rfl
  refine ⟨generateResponseGo_attempts_le oracle 3 3 0, ?_, ?_, ?_, ?_⟩
  · intro t h0 ht
    rw [generate_response, u3, generateResponseGo_success_step oracle 3 2 0 t h0 ht]
  · intro e0 t h0 h1 ht
    rw [generate_response, u3, generateResponseGo_fail_step oracle 3 2 0 e0 h0,
      if_pos (show (0 : Nat) < 3 - 1 by omega), u2,
      generateResponseGo_success_step oracle 3 1 1 t h1 ht]
    rfl
  · intro e0 e1 t h0 h1 h2 ht
    rw [generate_response, u3, generateResponseGo_fail_step oracle 3 2 0 e0 h0,
      if_pos (show (0 : Nat) < 3 - 1 by omega), u2,
      generateResponseGo_fail_step oracle 3 1 1 e1 h1,
      if_pos (show (1 : Nat) < 3 - 1 by omega), u1,
      generateResponseGo_success_step oracle 3 0 2 t h2 ht]
    rfl
  · intro e0 e1 e2 h0 h1 h2
    rw [generate_response, u3, generateResponseGo_fail_step oracle 3 2 0 e0 h0,
      if_pos (show (0 : Nat) < 3 - 1 by omega), u2,
      generateResponseGo_fail_step oracle 3 1 1 e1 h1,
      if_pos (show (1 : Nat) < 3 - 1 by omega), u1,
      generateResponseGo_fail_step oracle 3 0 2 e2 h2,
      if_neg (show ¬ (2 : Nat) < 3 - 1 by omega)]
    rfl

/-- Witness for claim C6 at an oracle whose every attempt raises `"boom"`. -/
theorem generate_response_retry_spec_witness :
    (attemptFailure (allFailOracle 0) = some "boom" ∧
     attemptFailure (allFailOracle 1) = some "boom" ∧
     attemptFailure (allFailOracle 2) = some "boom") ∧
    generate_response allFailOracle 3 =
      ⟨some (.error ("Failed to generate response after 3 attempts: " ++ "boom")),
       3, [1, 2]⟩ :=
  ⟨⟨rfl, rfl, rfl⟩,
   (generate_response_retry_spec allFailOracle).2.2.2.2 "boom" "boom" "boom" rfl rfl rfl⟩

/-- Appending one element to a list grows its deduplicated length by one
exactly when the element is new. -/
theorem dedup_length_append_singleton (l : List String) (a : String) :
    (l ++ [a]).dedup.length =
      if a ∈ l then l.dedup.length else l.dedup.length + 1 := by
  rw [← List.card_toFinset, ← List.card_toFinset, List.toFinset_append]
  have h1 : ([a] : List String).toFinset = {a} := by simp
  rw [h1]
  by_cases h : a ∈ l
  · rw [if_pos h]
    have h2 : l.toFinset ∪ {a} = l.toFinset :=
      Finset.union_eq_left.mpr (by simpa using h)
    rw [h2]
  · rw [if_neg h]
    have h2 : l.toFinset ∪ {a} = insert a l.toFinset := by
      rw [Finset.union_comm, ← Finset.insert_eq]
    rw [h2, Finset.card_insert_of_not_mem (by simpa using h)]

/-- Claim C5, amended: appending an issue whose category already occurs
leaves the compliance score unchanged; appending an issue in a fresh
category strictly decreases the score when fewer than 6 categories are
already flagged; with 6 or more distinct categories already flagged the
score is clamped at 0 and stays 0. -/
theorem complianceScore_monotonicity (L : List Issue) (i : Issue) :
    (i.category ∈ L.map (fun j => j.category) →
      complianceScore (L ++ [i]) = complianceScore L) ∧
    (i.category ∉ L.map (fun j => j.category) → (distinctCategories L).length < 6 →
      complianceScore (L ++ [i]) < complianceScore L) ∧
    (i.category ∉ L.map (fun j => j.category) → 6 ≤ (distinctCategories L).length →
      complianceScore L = 0 ∧ complianceScore (L ++ [i]) = 0) := by
  have hmap : (L ++ [i]).map (fun j => j.category) =
      L.map (fun j => j.category) ++ [i.category] := by simp
  have hlen := dedup_length_append_singleton (L.map fun j => j.category) i.category
  refine ⟨?_, ?_, ?_⟩
  · intro hmem
    unfold complianceScore distinctCategories
    rw [hmap, hlen, if_pos hmem]
  · intro hmem hlt
    unfold distinctCategories at hlt
    unfold complianceScore distinctCategories
    rw [hmap, hlen, if_neg hmem]
    set c := (L.map fun j => j.category).dedup.length with hc
    have hcle : (c : ℚ) ≤ 5 := by exact_mod_cast Nat.lt_succ_iff.mp hlt
    have hL : (0 : ℚ) ≤ (6 - (c : ℚ)) / 6 * 100 :=
      mul_nonneg (div_nonneg (by linarith) (by norm_num)) (by norm_num)
    have hN : (0 : ℚ) ≤ (6 - ((c + 1 : Nat) : ℚ)) / 6 * 100 :=
      mul_nonneg (div_nonneg (by push_cast; linarith) (by norm_num)) (by norm_num)
    rw [max_eq_right hN, max_eq_right hL]
    push_cast
    linarith
  · intro hmem hge
    unfold distinctCategories at hge
    unfold complianceScore distinctCategories
    rw [hmap, hlen, if_neg hmem]
    set c := (L.map fun j => j.category).dedup.length with hc
    have h6 : (6 : ℚ) ≤ (c : ℚ) := by exact_mod_cast hge
    constructor
    · exact max_eq_left (by linarith)
    · exact max_eq_left (by push_cast; linarith)

/-- Counterexample to claim C5 as stated: six issues already cover six
distinct categories, so the score is clamped at 0, and appending an issue
in the fresh seventh category `"signatures"` leaves the score at 0 instead
of strictly decreasing it. -/
theorem complianceScore_seventh_category_counterexample :
    (issuesSixCats.map fun j => j.category) =
      ["document_type", "jurisdiction", "completeness", "clarity", "formatting",
       "mandatory_clauses"] ∧
    (mkIssue "signatures").category = "signatures" ∧
    complianceScore issuesSixCats = 0 ∧
    complianceScore (issuesSixCats ++ [mkIssue "signatures"]) = 0 := by
  refine ⟨rfl, rfl, ?_, ?_⟩
  · have hl : (distinctCategories issuesSixCats).length = 6 := rfl
    rw [complianceScore, hl]
    exact max_eq_left (by push_cast; norm_num)
  · have hl : (distinctCategories (issuesSixCats ++ [mkIssue "signatures"])).length = 7 := rfl
    rw [complianceScore, hl]
    exact max_eq_left (by push_cast; norm_num)

/-- Witness for claim C5 (amended) at a one-issue list gaining a fresh
category. -/
theorem complianceScore_monotonicity_witness :
    ((mkIssue "formatting").category ∉
        List.map (fun j => j.category) [mkIssue "jurisdiction"] ∧
     (distinctCategories [mkIssue "jurisdiction"]).length < 6) ∧
    complianceScore ([mkIssue "jurisdiction"] ++ [mkIssue "formatting"]) <
      complianceScore [mkIssue "jurisdiction"] :=
  ⟨⟨by decide, by decide⟩,
   (complianceScore_monotonicity [mkIssue "jurisdiction"] (mkIssue "formatting")).2.1
     (by decide) (by decide)⟩

/-- Every issue of the document-type pass is categorised `document_type`. -/
theorem mem_check_document_type_category {doc : DocData} {p : String} {i : Issue}
    (h : i ∈ _check_document_type_requirements doc p) : i.category = "document_type" := by
  simp only [_check_document_type_requirements] at h
  split at h
  · simp at h
  · split at h
    · simp at h
      subst h
      rfl
    · simp at h

/-- Every issue of the red-flag pass carries one of the four categories of
the pattern table. -/
theorem mem_detect_red_flags_category {f : RegexOracle} {doc : DocData} {i : Issue}
    (h : i ∈ _detect_red_flags f doc) :
    i.category ∈ (["jurisdiction", "completeness", "clarity", "formatting"] : List String) := by
  simp only [_detect_red_flags] at h
  obtain ⟨flag, hflag, hmem⟩ := List.mem_flatMap.mp h
  obtain ⟨m, hm, rfl⟩ := List.mem_map.mp hmem
  simp only [red_flag_patterns, List.mem_cons, List.not_mem_nil, or_false] at hflag
  rcases hflag with rfl | rfl | rfl | rfl | rfl <;> simp

/-- Every issue of the mandatory-clause pass is categorised
`mandatory_clauses`. -/
theorem mem_check_mandatory_clauses_category {doc : DocData} {p : String} {i : Issue}
    (h : i ∈ _check_mandatory_clauses doc p) : i.category = "mandatory_clauses" := by
  simp only [_check_mandatory_clauses] at h
  split at h
  · simp at h
  · obtain ⟨clause, _, hsome⟩ := List.mem_filterMap.mp h
    split at hsome
    · injection hsome with h2
      rw [← h2]
    · simp at hsome

/-- Every issue of the jurisdiction pass is categorised `jurisdiction`. -/
theorem mem_check_jurisdiction_category {f : RegexOracle} {doc : DocData} {p : String}
    {i : Issue} (h : i ∈ _check_jurisdiction_compliance f doc p) :
    i.category = "jurisdiction" := by
  simp only [_check_jurisdiction_compliance] at h
  split at h
  · simp at h
  · rw [List.mem_append] at h
    rcases h with h | h
    · split at h
      · simp at h
        subst h
        rfl
      · simp at h
    · obtain ⟨p', _, hsome⟩ := List.mem_filterMap.mp h
      split at hsome
      · injection hsome with h2
        rw [← h2]
      · simp at hsome

/-- Every issue of the formatting pass is categorised `formatting`. -/
theorem mem_check_formatting_category {doc : DocData} {i : Issue}
    (h : i ∈ _check_formatting_requirements doc) : i.category = "formatting" := by
  simp only [_check_formatting_requirements] at h
  rw [List.mem_append, List.mem_append] at h
  rcases h with (h | h) | h <;>
    · split at h
      · simp at h
        subst h
        rfl
      · simp at h

/-- Every issue of the signature pass is categorised `signatures`. -/
theorem mem_check_signature_category {doc : DocData} {i : Issue}
    (h : i ∈ _check_signature_requirements doc) : i.category = "signatures" := by
  simp only [_check_signature_requirements] at h
  split at h
  · simp at h
    subst h
    rfl
  · simp at h

/-- Claim C10: every issue returned by `check_document` carries one of the
seven labels `document_type`, `jurisdiction`, `completeness`, `clarity`,
`mandatory_clauses`, `formatting`, `signatures`; the count of distinct
flagged categories can reach 7 (exceeding the 6 of the score denominator),
witnessed by a concrete document; and the `max(0, _)` clamp keeps the
returned compliance score within `[0, 100]`. -/
theorem check_document_categories_spec :
    (∀ (finditer : RegexOracle) (doc_data : DocData) (process_type : String),
      ∀ i ∈ (check_document finditer doc_data process_type).issues,
        i.category ∈ (["document_type", "jurisdiction", "completeness", "clarity",
          "mandatory_clauses", "formatting", "signatures"] : List String)) ∧
    (distinctCategories (check_document sevenCategoryOracle sevenCategoryDoc
        "Company Incorporation").issues).length = 7 ∧
    (∀ (finditer : RegexOracle) (doc_data : DocData) (process_type : String),
      0 ≤ (check_document finditer doc_data process_type).compliance_score ∧
      (check_document finditer doc_data process_type).compliance_score ≤ 100) := by
  refine ⟨?_, ?_, ?_⟩
  · intro f d p i hi
    have hi' : i ∈ _check_document_type_requirements d p ∨ i ∈ _detect_red_flags f d ∨
        i ∈ _check_mandatory_clauses d p ∨ i ∈ _check_jurisdiction_compliance f d p ∨
        i ∈ _check_formatting_requirements d ∨ i ∈ _check_signature_requirements d := by
      have : i ∈ _check_document_type_requirements d p ++ _detect_red_flags f d ++
          _check_mandatory_clauses d p ++ _check_jurisdiction_compliance f d p ++
          _check_formatting_requirements d ++ _check_signature_requirements d := hi
      simpa [List.mem_append, or_assoc] using this
    rcases hi' with h | h | h | h | h | h
    · rw [mem_check_document_type_category h]; simp
    · have h4 := mem_detect_red_flags_category h
      simp only [List.mem_cons, List.not_mem_nil, or_false] at h4 ⊢
      tauto
    · rw [mem_check_mandatory_clauses_category h]; simp
    · rw [mem_check_jurisdiction_category h]; simp
    · rw [mem_check_formatting_category h]; simp
    · rw [mem_check_signature_category h]; simp
  · decide
  · intro f d p
    have hs : (check_document f d p).compliance_score =
        complianceScore (check_document f d p).issues := rfl
    rw [hs, complianceScore]
    have hc : (0 : ℚ) ≤
        ((distinctCategories (check_document f d p).issues).length : ℚ) :=
      Nat.cast_nonneg _
    exact ⟨le_max_left 0 _, max_le (by norm_num) (by linarith)⟩

/-- Witness for claim C10: the first issue of a concrete run of
`check_document` is among the returned issues and carries one of the seven
labels. -/
theorem check_document_categories_spec_witness :
    ((check_document emptyRegexOracle sevenCategoryDoc "Unknown").issues.getD 0 (mkIssue "")
        ∈ (check_document emptyRegexOracle sevenCategoryDoc "Unknown").issues) ∧
    ((check_document emptyRegexOracle sevenCategoryDoc "Unknown").issues.getD 0
        (mkIssue "")).category ∈
      (["document_type", "jurisdiction", "completeness", "clarity",
        "mandatory_clauses", "formatting", "signatures"] : List String) :=
  ⟨by decide,
   check_document_categories_spec.1 emptyRegexOracle sevenCategoryDoc "Unknown" _ (by decide)⟩

/-- Closed form of the fuelled range loop: with positive step and enough
fuel it is an arithmetic progression of `⌈(stop - s) / step⌉` terms. -/
theorem pythonRangeGo_eq (stop step : Nat) (hs : 1 ≤ step) :
    ∀ fuel s, stop - s ≤ fuel →
      pythonRangeGo stop step fuel s =
        List.range' s ((stop - s + (step - 1)) / step) step := by
  intro fuel
  induction fuel with
  | zero =>
    intro s h
    have h0 : stop - s = 0 := by omega
    have h2 : (0 + (step - 1)) / step = 0 := by
      rw [Nat.zero_add]
      exact Nat.div_eq_of_lt (by omega)
    simp only [pythonRangeGo, h0, h2]
    rfl
  | succ fuel ih =>
    intro s h
    by_cases hlt : s < stop
    · have hrec : stop - (s + step) ≤ fuel := by omega
      simp only [pythonRangeGo, if_pos hlt]
      rw [ih (s + step) hrec]
      have hcount : (stop - s + (step - 1)) / step =
          (stop - (s + step) + (step - 1)) / step + 1 := by
        rcases le_or_lt stop (s + step) with hle | hgt
        · have h1 : stop - (s + step) = 0 := by omega
          have h2 : (0 + (step - 1)) / step = 0 := by
            rw [Nat.zero_add]
            exact Nat.div_eq_of_lt (by omega)
          rw [h1, h2]
          have h3 : stop - s + (step - 1) = (stop - s - 1) + step := by omega
          rw [h3, Nat.add_div_right _ (by omega)]
          have h4 : (stop - s - 1) / step = 0 := Nat.div_eq_of_lt (by omega)
          rw [h4]
        · have h3 : stop - s + (step - 1) =
              (stop - (s + step) + (step - 1)) + step := by omega
          rw [h3, Nat.add_div_right _ (by omega)]
      rw [hcount, List.range'_succ]
    · have h0 : stop - s = 0 := by omega
      have h2 : (0 + (step - 1)) / step = 0 := by
        rw [Nat.zero_add]
        exact Nat.div_eq_of_lt (by omega)
      simp only [pythonRangeGo, if_neg hlt, h0, h2]
      rfl

/-- Closed form of `pythonRange` for a positive step. -/
theorem pythonRange_eq (start stop step : Nat) (hs : 1 ≤ step) :
    pythonRange start stop step =
      List.range' start ((stop - start + (step - 1)) / step) step :=
  pythonRangeGo_eq stop step hs (stop - start) start le_rfl

/-- A `filterMap` whose guard holds on every image is a `map`. -/
theorem filterMap_guard_eq_map {α β : Type} (p : β → Bool) (f : α → β) :
    ∀ l : List α, (∀ a ∈ l, p (f a) = true) →
      (l.filterMap fun a => if p (f a) then some (f a) else none) = l.map f := by
  intro l hl
  induction l with
  | nil => rfl
  | cons a t ih =>
    have h1 := hl a (List.mem_cons_self a t)
    simp [List.filterMap_cons, h1, ih fun b hb => hl b (List.mem_cons_of_mem a hb)]

/-- When every word of the text has a non-whitespace character (as the
words produced by Python's `split()` always do), no chunk is filtered out:
`_chunk_content` is the chunk at each start index of `range(0, n, 800)`. -/
theorem _chunk_content_eq_map (ws : List String) (hw : ∀ w ∈ ws, hasNonWS w = true) :
    _chunk_content ws 1000 200 =
      (List.range' 0 ((ws.length + 799) / 800) 800).map fun i =>
        (ws.drop i).take 1000 := by
  unfold _chunk_content
  rw [show (1000 : Nat) - 200 = 800 from rfl,
    pythonRange_eq 0 ws.length 800 (by omega),
    show ws.length - 0 + (800 - 1) = ws.length + 799 from by omega]
  apply filterMap_guard_eq_map (fun c => c.any hasNonWS) (fun i => (ws.drop i).take 1000)
  intro i hi
  obtain ⟨j, hj, rfl⟩ := List.mem_range'.mp hi
  have hin : 0 + 800 * j < ws.length := by omega
  have hne : (ws.drop (0 + 800 * j)).take 1000 ≠ [] := by
    rw [ne_eq, List.take_eq_nil_iff]
    push_neg
    refine ⟨by omega, ?_⟩
    rw [ne_eq, List.drop_eq_nil_iff]
    omega
  obtain ⟨w, hwmem⟩ := List.exists_mem_of_ne_nil _ hne
  have hws : w ∈ ws := List.mem_of_mem_drop (List.mem_of_mem_take hwmem)
  rw [List.any_eq_true]
  exact ⟨w, hwmem, hw w hws⟩

/-- The `j`-th chunk is the 1000-word slice starting at word `800 * j`. -/
theorem _chunk_content_getD (ws : List String) (hw : ∀ w ∈ ws, hasNonWS w = true)
    (j : Nat) (hj : j < (ws.length + 799) / 800) :
    (_chunk_content ws 1000 200).getD j [] = (ws.drop (800 * j)).take 1000 := by
  rw [_chunk_content_eq_map ws hw]
  have hlen : j < ((List.range' 0 ((ws.length + 799) / 800) 800).map
      fun i => (ws.drop i).take 1000).length := by simp [hj]
  rw [List.getD_eq_getElem _ _ hlen]
  simp

/-- Claim C2, amended: for a text of `n ≥ 1` words the chunker produces
exactly `⌈n / 800⌉` chunks; no chunk is empty; every chunk except possibly
the last two has exactly 1000 words, and every chunk except possibly the
last has between 801 and 1000 words; consecutive chunks always share the
suffix/prefix slice of up to 200 words, and when the earlier chunk is full
the shared overlap is exactly 200 words. -/
theorem chunking_spec (ws : List String) (_hne : ws ≠ [])
    (hw : ∀ w ∈ ws, hasNonWS w = true) : ChunkSpec ws := by
  refine ⟨?_, ?_, ?_, ?_, ?_⟩
  · rw [_chunk_content_eq_map ws hw]
    simp
  · intro c hc
    rw [_chunk_content_eq_map ws hw] at hc
    obtain ⟨i, hi, rfl⟩ := List.mem_map.mp hc
    obtain ⟨j, hj, rfl⟩ := List.mem_range'.mp hi
    rw [ne_eq, List.take_eq_nil_iff]
    push_neg
    refine ⟨by omega, ?_⟩
    rw [ne_eq, List.drop_eq_nil_iff]
    omega
  · intro j hj
    rw [_chunk_content_getD ws hw j (by omega), List.length_take, List.length_drop]
    omega
  · intro j hj
    rw [_chunk_content_getD ws hw j (by omega), List.length_take, List.length_drop]
    constructor <;> omega
  · intro j hj
    rw [_chunk_content_getD ws hw j (by omega),
      _chunk_content_getD ws hw (j + 1) (by omega)]
    constructor
    · rw [List.drop_take, List.drop_drop, List.take_take]
      rw [show (1000 : Nat) - 800 = 200 from rfl,
        show min 200 1000 = 200 from rfl,
        show 800 * j + 800 = 800 * (j + 1) from by ring]
    · intro hfull
      rw [List.length_drop, hfull]

set_option maxRecDepth 100000 in
/-- Counterexample to claim C2 as stated: a 900-word text yields two
chunks, and the first (a non-final chunk) has 900 words, not 1000. -/
theorem chunking_nonfinal_chunk_short :
    (_chunk_content (List.replicate 900 "w") 1000 200).length = 2 ∧
    ((_chunk_content (List.replicate 900 "w") 1000 200).getD 0 []).length = 900 := by
  constructor <;> rfl

/-- Witness for claim C2 (amended) at the one-word text `["a"]`. -/
theorem chunking_spec_witness :
    ((["a"] : List String) ≠ [] ∧ ∀ w ∈ (["a"] : List String), hasNonWS w = true) ∧
    ChunkSpec ["a"] :=
  ⟨⟨by decide, by decide⟩, chunking_spec ["a"] (by decide) (by decide)⟩
